import Mathlib

/-!
Formal model of the `screen-demo` repository.

The development shallowly embeds the parts of the code the verified claims
are about:

* `src/hooks/useScreenRecorder.ts` — the recording session hook.  React
  state (`useState`), refs (`useRef`) and the world of created
  `MediaRecorder` / `MediaStream` / `MediaStreamTrack` objects are folded
  into one explicit record `HookState`; each hook operation and each
  attached event handler becomes a function `HookState → HookState`
  (taking the current `Date.now()` in milliseconds where the source reads
  it).  Recorders, streams and tracks are kept in creation-order lists so
  that the liveness of objects no longer referenced by the refs remains
  observable.
* `VideoTrimmer.handleTrim` and its validation cascade (ffmpeg trim
  orchestration), with JavaScript numbers modelled by `JsNum`
  (NaN / ±Infinity / finite rational).
* `src/lib/db.ts` — the JSON analytics store, with JS objects modelled as
  insertion-ordered association lists.
* `storage.getVideoPath` and the `GET /api/video/[id]` route, with file
  paths modelled as segment lists and `path.join` normalisation made
  explicit.
-/

namespace ScreenDemo

/-- A binary blob, as its list of bytes. -/
abbrev Blob := List Nat

/-- Kind of a `MediaStreamTrack`. -/
inductive TrackKind
  | video
  | audio
deriving DecidableEq

/-- A `MediaStreamTrack`: its kind, its mutable `enabled` flag and whether
`stop()` has been called on it. -/
structure Track where
  kind : TrackKind
  enabled : Bool
  stopped : Bool
deriving DecidableEq

/-- Status of a `MediaRecorder` (`recording` after `start`, `paused`
after `pause`, `inactive` after `stop`). -/
inductive RecStatus
  | inactive
  | recording
  | paused
deriving DecidableEq

/-- The whole observable state of `useScreenRecorder`: the React state
variables, the refs, and the world of objects created so far.  A
`MediaStream` is the list of the ids (indices into `tracks`) of its
tracks; `mediaRecorderRef` / `streamRef` / `audioTrackRef` are indices
into the corresponding lists, `none` when the ref is `null`.
`timerActive` models `timerRef` being set; `timerCapturedPaused` is the
value of the `isPaused` state variable captured by the closure passed to
`setInterval` — the interval callback reads this captured value, not the
current one (the refs, by contrast, are read fresh on every tick). -/
structure HookState where
  isRecording : Bool
  isPaused : Bool
  recordingTime : Nat
  videoBlob : Option Blob
  error : Option String
  isMicrophoneEnabled : Bool
  mediaRecorderRef : Option Nat
  streamRef : Option Nat
  audioTrackRef : Option Nat
  chunks : List Blob
  timerActive : Bool
  timerCapturedPaused : Bool
  startTime : Nat
  pausedTime : Nat
  tracks : List Track
  streams : List (List Nat)
  recorders : List RecStatus
deriving DecidableEq

/-- The initial hook state (all `useState` defaults, all refs `null`). -/
def initState : HookState where
  isRecording := false
  isPaused := false
  recordingTime := 0
  videoBlob := none
  error := none
  isMicrophoneEnabled := true
  mediaRecorderRef := none
  streamRef := none
  audioTrackRef := none
  chunks := []
  timerActive := false
  timerCapturedPaused := false
  startTime := 0
  pausedTime := 0
  tracks := []
  streams := []
  recorders := []

/-- Mark the track with id `i` stopped (`track.stop()`). -/
def stopTrack (ts : List Track) (i : Nat) : List Track :=
  match ts[i]? with
  | some t => ts.set i { t with stopped := true }
  | none => ts

/-- Stop every track in `ids` (`stream.getTracks().forEach(t => t.stop())`). -/
def stopTracks (ts : List Track) (ids : List Nat) : List Track :=
  ids.foldl stopTrack ts

/-- `startRecording(enableMicrophone)` (src/hooks/useScreenRecorder.ts
lines 43–145).  `now` is `Date.now()`; `displayGranted` is whether
`getDisplayMedia` resolves, `micGranted` whether `getUserMedia` resolves.
The function follows the source statement by statement: clear the error,
clear the chunk buffer and record the microphone preference; acquire the
display stream (failure is caught and sets a message); optionally acquire
the microphone, a denial only clearing `isMicrophoneEnabled`; build the
combined stream; create and start a fresh recorder; anchor the timer
references; start the interval, whose closure captures the `isPaused`
value of the render that produced this `startRecording`. -/
def startRecording (s : HookState) (now : Nat)
    (enableMicrophone displayGranted micGranted : Bool) : HookState :=
  let s1 := { s with error := none, chunks := ([] : List Blob),
                     isMicrophoneEnabled := enableMicrophone }
  if displayGranted = false then
    { s1 with error := some "Failed to start recording" }
  else
    let videoTrackId := s1.tracks.length
    let s2 := { s1 with tracks := s1.tracks ++ [Track.mk TrackKind.video true false] }
    let s3 :=
      if enableMicrophone then
        if micGranted then
          { s2 with tracks := s2.tracks ++ [Track.mk TrackKind.audio true false],
                    audioTrackRef := some s2.tracks.length }
        else
          { s2 with isMicrophoneEnabled := false }
      else s2
    let audioIds : List Nat :=
      if enableMicrophone && micGranted then [videoTrackId + 1] else []
    let s4 := { s3 with streams := s3.streams ++ [videoTrackId :: audioIds],
                        streamRef := some s3.streams.length }
    let s5 := { s4 with recorders := s4.recorders ++ [RecStatus.recording],
                        mediaRecorderRef := some s4.recorders.length }
    { s5 with
        isRecording := true
        isPaused := false
        startTime := now - s5.pausedTime
        pausedTime := 0
        timerActive := true
        timerCapturedPaused := s.isPaused }

/-- The `ondataavailable` handler (lines 103–107): pushes the delivered
segment onto the chunk buffer, dropping empty segments. -/
def dataAvailable (s : HookState) (seg : Blob) : HookState :=
  if 0 < seg.length then { s with chunks := s.chunks ++ [seg] } else s

/-- Deliver a whole sequence of `ondataavailable` events in order. -/
def appendChunks (s : HookState) (segs : List Blob) : HookState :=
  segs.foldl dataAvailable s

/-- The `onstop` handler (lines 109–119): build the final blob from the
collected chunks, clear the buffer, stop every track of the referenced
stream and drop the stream and audio-track refs. -/
def onStopEvent (s : HookState) : HookState :=
  let s1 := { s with videoBlob := some s.chunks.flatten, chunks := ([] : List Blob) }
  match s1.streamRef with
  | some sid =>
      { s1 with tracks := stopTracks s1.tracks (s1.streams[sid]?.getD []),
                streamRef := none, audioTrackRef := none }
  | none => { s1 with audioTrackRef := none }

/-- The `onerror` handler (lines 121–123): the source only stores a
generic message; nothing else changes. -/
def onErrorEvent (s : HookState) : HookState :=
  { s with error := some "Recording error occurred" }

/-- One firing of the `setInterval` callback (lines 132–136) at wall
clock `now`.  The callback tests the captured `isPaused`, not the live
one, and reads `startTimeRef` fresh. -/
def timerTick (s : HookState) (now : Nat) : HookState :=
  if s.timerActive && !s.timerCapturedPaused then
    { s with recordingTime := (now - s.startTime) / 1000 }
  else s

/-- `stopRecording` (lines 147–157). -/
def stopRecording (s : HookState) : HookState :=
  match s.mediaRecorderRef with
  | some i =>
      if s.isRecording then
        { s with recorders := s.recorders.set i RecStatus.inactive,
                 isRecording := false, isPaused := false, timerActive := false }
      else s
  | none => s

/-- `pauseRecording` (lines 159–165) at wall clock `now`. -/
def pauseRecording (s : HookState) (now : Nat) : HookState :=
  match s.mediaRecorderRef with
  | some i =>
      if s.isRecording && !s.isPaused then
        { s with recorders := s.recorders.set i RecStatus.paused,
                 isPaused := true, pausedTime := now - s.startTime }
      else s
  | none => s

/-- `resumeRecording` (lines 167–174) at wall clock `now`. -/
def resumeRecording (s : HookState) (now : Nat) : HookState :=
  match s.mediaRecorderRef with
  | some i =>
      if s.isRecording && s.isPaused then
        { s with recorders := s.recorders.set i RecStatus.recording,
                 isPaused := false, startTime := now - s.pausedTime,
                 pausedTime := 0 }
      else s
  | none => s

/-- `toggleMicrophone` (lines 199–204): a guard on `isRecording` and on
the audio-track ref, then flip the track's `enabled` flag and mirror it
into `isMicrophoneEnabled`. -/
def toggleMicrophone (s : HookState) : HookState :=
  if s.isRecording then
    match s.audioTrackRef with
    | some i =>
        match s.tracks[i]? with
        | some t =>
            { s with tracks := s.tracks.set i { t with enabled := !t.enabled },
                     isMicrophoneEnabled := !t.enabled }
        | none => s
    | none => s
  else s

/-- Number of recorders that are still live (started and not stopped). -/
def liveRecorders (s : HookState) : Nat :=
  (s.recorders.filter (fun r => r ≠ RecStatus.inactive)).length

/-- Number of tracks that were never stopped. -/
def unstoppedTracks (s : HookState) : Nat :=
  (s.tracks.filter (fun t => t.stopped = false)).length

/-- A JavaScript number: NaN, an infinity, or a finite value (modelled as
a rational). -/
inductive JsNum
  | nan
  | posInf
  | negInf
  | fin (q : ℚ)
deriving DecidableEq

/-- `isNaN(x)`. -/
def JsNum.isNaN : JsNum → Bool
  | nan => true
  | _ => false

/-- `Number.isFinite(x)`. -/
def JsNum.isFinite : JsNum → Bool
  | fin _ => true
  | _ => false

/-- IEEE `a < b`: false whenever either operand is NaN. -/
def JsNum.lt : JsNum → JsNum → Bool
  | nan, _ => false
  | _, nan => false
  | posInf, _ => false
  | negInf, negInf => false
  | negInf, _ => true
  | fin _, posInf => true
  | fin _, negInf => false
  | fin a, fin b => decide (a < b)

/-- IEEE `a > b`. -/
def JsNum.gt (a b : JsNum) : Bool := JsNum.lt b a

/-- IEEE `a >= b`: false whenever either operand is NaN, otherwise the
negation of `a < b`. -/
def JsNum.ge (a b : JsNum) : Bool :=
  match a, b with
  | nan, _ => false
  | _, nan => false
  | _, _ => !(JsNum.lt a b)

/-- IEEE `a - b`. -/
def JsNum.sub : JsNum → JsNum → JsNum
  | nan, _ => nan
  | _, nan => nan
  | posInf, posInf => nan
  | posInf, _ => posInf
  | negInf, negInf => nan
  | negInf, _ => negInf
  | fin _, posInf => negInf
  | fin _, negInf => posInf
  | fin a, fin b => fin (a - b)

/-- Outcome of the `handleTrim` validation cascade
(src/unnamed/part_005 lines 116–143): which check failed first, or
`engineRun` when every check passed and `trimVideo` is invoked. -/
inductive TrimOutcome
  | invalidNumbers
  | negativeStart
  | endTooLarge
  | startNotLtEnd
  | tooShort
  | engineRun
deriving DecidableEq

/-- The validation cascade of `handleTrim`, exactly as in the source:
`isNaN(start) || isNaN(end)`, then `start < 0`, then `end > duration`,
then `start >= end`, then `end - start < 0.1`, first failure winning. -/
def trimValidate (start endT : JsNum) (duration : ℚ) : TrimOutcome :=
  if start.isNaN || endT.isNaN then .invalidNumbers
  else if start.lt (.fin 0) then .negativeStart
  else if endT.gt (.fin duration) then .endTooLarge
  else if start.ge endT then .startNotLtEnd
  else if (endT.sub start).lt (.fin (1 / 10)) then .tooShort
  else .engineRun

/-- The error message `handleTrim` stores for each validation failure
(the `endTooLarge` message interpolates `duration.toFixed(2)` in the
source; the model keeps the fixed prefix). -/
def trimErrorMessage : TrimOutcome → Option String
  | .invalidNumbers => some "Please enter valid numbers for start and end times"
  | .negativeStart => some "Start time must be >= 0"
  | .endTooLarge => some "End time must be <= duration seconds"
  | .startNotLtEnd => some "Start time must be less than end time"
  | .tooShort => some "Trimmed video must be at least 0.1 seconds long"
  | .engineRun => none

/-- Modelled from the spec's words, for comparison with `trimValidate`
(the code is the authority): the spec's ordering puts a *non-finiteness*
check first — "non-finite times → negative start → end > duration →
start ≥ end → duration < 0.1s" — where the source tests only `isNaN`. -/
def specTrimValidate (start endT : JsNum) (duration : ℚ) : TrimOutcome :=
  if !start.isFinite || !endT.isFinite then .invalidNumbers
  else if start.lt (.fin 0) then .negativeStart
  else if endT.gt (.fin duration) then .endTooLarge
  else if start.ge endT then .startNotLtEnd
  else if (endT.sub start).lt (.fin (1 / 10)) then .tooShort
  else .engineRun

/-- Observable outcome of one `handleTrim` call: the error it stores (if
any), whether it attempted to load the ffmpeg engine, and whether it
invoked `trimVideo` (which is what allocates per-call engine resources:
the virtual input/output files). -/
structure HandleResult where
  error : Option String
  loadAttempted : Bool
  engineInvoked : Bool
deriving DecidableEq

/-- `handleTrim` (src/unnamed/part_005 lines 99–164) up to the engine
call: return early when there is no blob; ensure the engine is loaded
(an engine-load failure stores a message and returns); run the
validation cascade, storing the first failing check's message and
returning before `trimVideo`; otherwise invoke the engine. -/
def handleTrim (hasBlob ffmpegLoaded loadOk : Bool) (start endT : JsNum)
    (duration : ℚ) : HandleResult :=
  if hasBlob = false then ⟨none, false, false⟩
  else if ffmpegLoaded = false && loadOk = false then
    ⟨some "Failed to initialize video trimmer. Please refresh the page.", true, false⟩
  else
    match trimValidate start endT duration with
    | .engineRun => ⟨none, !ffmpegLoaded, true⟩
    | o => ⟨trimErrorMessage o, !ffmpegLoaded, false⟩

/-- A value stored in a `watchProgress` map: a numeric progress or the
boolean completion flag (`db.ts` stores `true` under the
`sessionId_completed` key in the same map). -/
inductive WPValue
  | num (q : ℚ)
  | flag (b : Bool)
deriving DecidableEq

/-- JavaScript truthiness of a possibly-absent `watchProgress` entry
(`undefined` and `0` are falsy). -/
def truthy : Option WPValue → Bool
  | none => false
  | some (.num q) => if q = 0 then false else true
  | some (.flag b) => b

/-- A JavaScript object used as a string-keyed map, as an
insertion-ordered association list. -/
def objGet {α : Type} : List (String × α) → String → Option α
  | [], _ => none
  | (k, v) :: rest, key => if k = key then some v else objGet rest key

/-- Property assignment on a JavaScript object: overwrite in place when
the key exists, append otherwise. -/
def objSet {α : Type} : List (String × α) → String → α → List (String × α)
  | [], key, v => [(key, v)]
  | (k, w) :: rest, key, v =>
      if k = key then (key, v) :: rest else (k, w) :: objSet rest key v

/-- The map of per-session watch progress values. -/
abbrev WPMap := List (String × WPValue)

/-- A persisted video record (`src/lib/db.ts` lines 7–13). -/
structure VideoRecord where
  id : String
  createdAt : String
  viewCount : Nat
  watchCompletions : Nat
  watchProgress : WPMap
deriving DecidableEq

/-- The whole database file: video records keyed by id. -/
abbrev DB := List (String × VideoRecord)

/-- `createVideoRecord` (db.ts lines 50–62): store a fresh record. -/
def createVideoRecord (db : DB) (videoId createdAt : String) : DB :=
  objSet db videoId ⟨videoId, createdAt, 0, 0, []⟩

/-- The body of `updateWatchProgress` once the record exists (db.ts
lines 102–108): store the session's progress, then — when progress is at
least 0.95 and the session's completion flag is not already truthy —
bump `watchCompletions` and set the flag. -/
def applyWatchProgress (r : VideoRecord) (sessionId : String) (p : ℚ) : VideoRecord :=
  let r1 := { r with watchProgress := objSet r.watchProgress sessionId (.num p) }
  if 95 / 100 ≤ p ∧ truthy (objGet r1.watchProgress (sessionId ++ "_completed")) = false then
    { r1 with
        watchCompletions := r1.watchCompletions + 1,
        watchProgress := objSet r1.watchProgress (sessionId ++ "_completed") (.flag true) }
  else r1

/-- `updateWatchProgress` (db.ts lines 91–111): create the record first
when it is absent (the source recurses after `createVideoRecord`; one
unfolding suffices since the record then exists). -/
def updateWatchProgress (db : DB) (videoId sessionId : String) (p : ℚ)
    (createdAt : String) : DB :=
  match objGet db videoId with
  | some r => objSet db videoId (applyWatchProgress r sessionId p)
  | none =>
      let db1 := createVideoRecord db videoId createdAt
      match objGet db1 videoId with
      | some r => objSet db1 videoId (applyWatchProgress r sessionId p)
      | none => db1

/-- The completion counter currently stored for a video (0 when the
record does not exist yet). -/
def completionsOf (db : DB) (videoId : String) : Nat :=
  match objGet db videoId with
  | some r => r.watchCompletions
  | none => 0

/-- Whether the completion flag stored under `sessionId_completed` is
already truthy for this video. -/
def completedFlagTruthy (db : DB) (videoId sessionId : String) : Bool :=
  match objGet db videoId with
  | some r => truthy (objGet r.watchProgress (sessionId ++ "_completed"))
  | none => false

/-- One step of POSIX path normalisation over an absolute path: empty
and `.` segments vanish, `..` removes the previous segment (a `..` at
the root is dropped), anything else is kept. -/
def normalizeStep (acc : List String) (seg : String) : List String :=
  if seg = "" ∨ seg = "." then acc
  else if seg = ".." then acc.dropLast
  else acc ++ [seg]

/-- Normalise a segment list, as `path.join` does after concatenation. -/
def normalizeSegs (segs : List String) : List String :=
  segs.foldl normalizeStep []

/-- Split a character list at `/` separators. -/
def splitSegsAux : List Char → List Char → List (List Char)
  | [], acc => [acc.reverse]
  | c :: cs, acc =>
      if c = '/' then acc.reverse :: splitSegsAux cs [] else splitSegsAux cs (c :: acc)

/-- Split a string into its `/`-separated segments. -/
def splitPath (s : String) : List String :=
  (splitSegsAux s.toList []).map List.asString

/-- `UPLOADS_DIR` = `path.join(process.cwd(), 'uploads')` (storage,
src/unnamed/part_004 line 5); `cwd` is the segment list of the process
working directory. -/
def uploadsDir (cwd : List String) : List String :=
  normalizeSegs (cwd ++ ["uploads"])

/-- `getVideoPath` (part_004 lines 43–45):
`path.join(UPLOADS_DIR, videoId + ".webm")` — the id is concatenated
into the path with no sanitisation, then `path.join` normalises the
result. -/
def getVideoPath (cwd : List String) (videoId : String) : List String :=
  normalizeSegs (cwd ++ ["uploads"] ++ splitPath (videoId ++ ".webm"))

/-- `videoExists` (part_004 lines 50–53) over a filesystem modelled as a
partial map from paths to contents. -/
def videoExists (fsys : List String → Option Blob) (cwd : List String)
    (videoId : String) : Bool :=
  (fsys (getVideoPath cwd videoId)).isSome

/-- Responses of the video-serving route. -/
inductive VideoResponse
  | badRequest
  | notFound
  | ok (body : Blob)
deriving DecidableEq

/-- `GET /api/video/[id]` (src/unnamed/part_001 lines 8–46): 400 on an
empty id, 404 when the resolved file does not exist, otherwise the file
at the resolved path is read and served. -/
def getVideoRoute (fsys : List String → Option Blob) (cwd : List String)
    (videoId : String) : VideoResponse :=
  if videoId = "" then .badRequest
  else if videoExists fsys cwd videoId = false then .notFound
  else
    match fsys (getVideoPath cwd videoId) with
    | some b => .ok b
    | none => .notFound

/-! ## General lemmas about the model -/

theorem objGet_objSet_self {α : Type} (m : List (String × α)) (k : String) (v : α) :
    objGet (objSet m k v) k = some v := by
  induction m with
  | nil => simp [objGet, objSet]
  | cons hd tl ih =>
      obtain ⟨k', w⟩ := hd
      by_cases h : k' = k <;> simp [objGet, objSet, h, ih]

theorem objGet_objSet_ne {α : Type} (m : List (String × α)) (k key : String) (v : α)
    (h : k ≠ key) : objGet (objSet m k v) key = objGet m key := by
  induction m with
  | nil => simp [objGet, objSet, h]
  | cons hd tl ih =>
      obtain ⟨k', w⟩ := hd
      by_cases h2 : k' = k
      · subst h2; simp [objGet, objSet, h]
      · simp only [objSet, if_neg h2, objGet]
        by_cases h3 : k' = key <;> simp [h3, ih]

theorem ne_append_completed (s : String) : s ≠ s ++ "_completed" := by
  intro h
  have hl := congrArg String.length h
  simp only [String.length_append] at hl
  rw [show "_completed".length = 10 from rfl] at hl
  omega

theorem applyWatchProgress_bump (r : VideoRecord) (sid : String) (p : ℚ)
    (hp : 95 / 100 ≤ p)
    (hc : truthy (objGet r.watchProgress (sid ++ "_completed")) = false) :
    (applyWatchProgress r sid p).watchCompletions = r.watchCompletions + 1
    ∧ truthy (objGet (applyWatchProgress r sid p).watchProgress (sid ++ "_completed")) = true := by
  have hne := ne_append_completed sid
  have hkey : objGet (objSet r.watchProgress sid (WPValue.num p)) (sid ++ "_completed")
      = objGet r.watchProgress (sid ++ "_completed") := objGet_objSet_ne _ _ _ _ hne
  simp only [applyWatchProgress, hkey, hc]
  rw [if_pos ⟨hp, trivial⟩]
  exact ⟨rfl, by rw [objGet_objSet_self]; rfl⟩

theorem applyWatchProgress_no_bump (r : VideoRecord) (sid : String) (p : ℚ)
    (hc : truthy (objGet r.watchProgress (sid ++ "_completed")) = true) :
    (applyWatchProgress r sid p).watchCompletions = r.watchCompletions := by
  have hne := ne_append_completed sid
  have hkey : objGet (objSet r.watchProgress sid (WPValue.num p)) (sid ++ "_completed")
      = objGet r.watchProgress (sid ++ "_completed") := objGet_objSet_ne _ _ _ _ hne
  simp only [applyWatchProgress, hkey, hc]
  rw [if_neg (by simp)]

theorem onStopEvent_videoBlob (s : HookState) :
    (onStopEvent s).videoBlob = some s.chunks.flatten ∧ (onStopEvent s).chunks = [] := by
  cases h : s.streamRef <;> simp [onStopEvent, h]

theorem dataAvailable_chunks (s : HookState) (seg : Blob) :
    (dataAvailable s seg).chunks
      = s.chunks ++ (if 0 < seg.length then [seg] else []) := by
  by_cases h : 0 < seg.length <;> simp [dataAvailable, h]

theorem appendChunks_chunks (segs : List Blob) (s : HookState) :
    (appendChunks s segs).chunks
      = s.chunks ++ segs.filter (fun b => decide (0 < b.length)) := by
  induction segs generalizing s with
  | nil => simp [appendChunks]
  | cons seg rest ih =>
      show (appendChunks (dataAvailable s seg) rest).chunks = _
      rw [ih]
      by_cases h : 0 < seg.length <;>
        simp [dataAvailable_chunks, h, List.filter_cons]

/-! ## Claim theorems -/

/-- The state after one successful `startRecording` from the initial
state (no microphone requested) at `Date.now() = 0`. -/
def oneStart : HookState := startRecording initState 0 false true true

/-- The state after calling `startRecording` again, at `Date.now() =
5000`, while the first session is still live. -/
def twoStarts : HookState := startRecording oneStart 5000 false true true

/-- Claim C1 — refuted on the code.  `startRecording` performs no check
of the current state: invoked while a session is live it acquires a new
stream, creates and starts a second `MediaRecorder`, and overwrites
`mediaRecorderRef`/`streamRef` without stopping the previous recorder or
releasing its tracks.  After a duplicate `start`, two recorders are
recording simultaneously and the first session's track is still
unstopped — a second live session exists, contradicting the claimed
single-open-session invariant. -/
theorem claim_C1 :
    liveRecorders oneStart = 1
    ∧ liveRecorders twoStarts = 2
    ∧ twoStarts.recorders = [RecStatus.recording, RecStatus.recording]
    ∧ unstoppedTracks twoStarts = 2
    ∧ twoStarts.mediaRecorderRef = some 1
    ∧ twoStarts.streamRef = some 1
    ∧ twoStarts.error = none := by
  decide

/-- The trace for claim C2: `startRecording` at `t = 0` ms, a timer tick
at `t = 1000`, then `pauseRecording` at `t = 1500`. -/
def pausedAt1500 : HookState :=
  pauseRecording (timerTick oneStart 1000) 1500

/-- Claim C2 — refuted on the code.  The `setInterval` callback created
inside `startRecording` captures the `isPaused` value of the render that
defined `startRecording` (always `false` at a fresh start), so its
`if (!isPaused)` guard never sees the pause: the reported time keeps
advancing while the session is `Paused`.  In the trace below the display
shows 1 s when the user pauses at `t = 1500`, yet the ticks at
`t = 2000` and `t = 3000` raise it to 2 and then 3 although the state is
still paused the whole time (`pausedTime` froze the accumulator at
1500 ms, i.e. at a reported value of 1 s). -/
theorem claim_C2 :
    pausedAt1500.isPaused = true
    ∧ pausedAt1500.recordingTime = 1
    ∧ pausedAt1500.pausedTime = 1500
    ∧ pausedAt1500.timerCapturedPaused = false
    ∧ (timerTick pausedAt1500 2000).isPaused = true
    ∧ (timerTick pausedAt1500 2000).recordingTime = 2
    ∧ (timerTick (timerTick pausedAt1500 2000) 3000).recordingTime = 3 := by
  decide

/-- The state after a successful `startRecording` with microphone and
then an asynchronous `onerror` event from the recorder. -/
def errorState : HookState :=
  onErrorEvent (startRecording initState 0 true true true)

/-- Claim C3 — refuted on the code.  The `onerror` handler only stores
the generic message "Recording error occurred": it does not stop the
session, does not release any track of the combined stream, and discards
the reported cause.  After the event the recorder is still recording,
both tracks (display video and microphone audio) are still unstopped and
the stream ref is still set — nothing was released. -/
theorem claim_C3 :
    errorState.error = some "Recording error occurred"
    ∧ errorState.isRecording = true
    ∧ liveRecorders errorState = 1
    ∧ unstoppedTracks errorState = 2
    ∧ errorState.streamRef = some 0
    ∧ errorState.audioTrackRef = some 1
    ∧ errorState.timerActive = true := by
  decide

/-- Claim C4: starting from an empty segment buffer (as after a
finalization or a fresh `start`), delivering any sequence of
`ondataavailable` events and then the `onstop` event yields an artifact
equal to the ordered concatenation of exactly the non-empty delivered
segments — zero-length segments are dropped, nothing is duplicated or
lost — and the buffer is cleared by finalization.  The last conjunct
shows a delivery appends to the buffer regardless of the session state
(in particular during the `Stopping` transition, after `stopRecording`
has already run). -/
theorem claim_C4 (s : HookState) (segs : List Blob) (h : s.chunks = []) :
    (onStopEvent (appendChunks s segs)).videoBlob
        = some (segs.filter (fun b => decide (0 < b.length))).flatten
    ∧ (appendChunks s segs).chunks = segs.filter (fun b => decide (0 < b.length))
    ∧ (onStopEvent (appendChunks s segs)).chunks = []
    ∧ (∀ s1 : HookState, ∀ seg : Blob,
        (dataAvailable (stopRecording s1) seg).chunks
          = (stopRecording s1).chunks ++ (if 0 < seg.length then [seg] else [])) := by
  have hch : (appendChunks s segs).chunks = segs.filter (fun b => decide (0 < b.length)) := by
    rw [appendChunks_chunks, h]; rfl
  refine ⟨?_, hch, (onStopEvent_videoBlob _).2, fun s1 seg => dataAvailable_chunks _ _⟩
  rw [(onStopEvent_videoBlob _).1, hch]

/-- Witness for claim C4 at a concrete input: segments `[1,2]`, `[]`
(zero-length, dropped) and `[3]` finalize to the blob `[1,2,3]` and the
buffer is cleared. -/
theorem claim_C4_witness :
    (onStopEvent (appendChunks initState [[1, 2], [], [3]])).videoBlob = some [1, 2, 3]
    ∧ (onStopEvent (appendChunks initState [[1, 2], [], [3]])).chunks = [] := by
  have h := claim_C4 initState [[1, 2], [], [3]] rfl
  exact ⟨h.1.trans (by decide), h.2.2.1⟩

/-- Claim C6: when the user requests a microphone (`enableMicrophone =
true`), the display capture succeeds but the microphone permission is
denied, `startRecording` still succeeds: the session records
(`isRecording = true`, no error), there is no audio track, and the
caller is informed the session is video-only (`isMicrophoneEnabled`
drops to `false`; the request argument itself is unchanged by the call).
Only denial of the display capture fails the acquisition: then the error
is set and the session does not start. -/
theorem claim_C6 (s : HookState) (now : Nat) (h : s.audioTrackRef = none) :
    ((startRecording s now true true false).isRecording = true
      ∧ (startRecording s now true true false).error = none
      ∧ (startRecording s now true true false).audioTrackRef = none
      ∧ (startRecording s now true true false).isMicrophoneEnabled = false)
    ∧ (∀ micGranted : Bool,
        (startRecording s now true false micGranted).error = some "Failed to start recording"
        ∧ (startRecording s now true false micGranted).isRecording = s.isRecording) := by
  constructor
  · refine ⟨?_, ?_, ?_, ?_⟩ <;> simp [startRecording, h]
  · intro micGranted
    exact ⟨by simp [startRecording], by simp [startRecording]⟩

/-- Witness for claim C6: from the initial state at `t = 0`, microphone
denial still starts a video-only session, and display denial fails the
start. -/
theorem claim_C6_witness :
    ((startRecording initState 0 true true false).isRecording = true
      ∧ (startRecording initState 0 true true false).error = none
      ∧ (startRecording initState 0 true true false).audioTrackRef = none
      ∧ (startRecording initState 0 true true false).isMicrophoneEnabled = false)
    ∧ (∀ micGranted : Bool,
        (startRecording initState 0 true false micGranted).error = some "Failed to start recording"
        ∧ (startRecording initState 0 true false micGranted).isRecording = initState.isRecording) :=
  claim_C6 initState 0 rfl

/-- Claim C9: `stopRecording` with no active recorder — the session is
not `Recording`/`Paused`, or the recorder ref is `null` — is a silent
no-op: the returned state is the input state, so every observable field
(the recording and paused flags, the reported time, the artifact, the
error) is unchanged. -/
theorem claim_C9 (s : HookState)
    (h : s.isRecording = false ∨ s.mediaRecorderRef = none) :
    stopRecording s = s := by
  cases hr : s.mediaRecorderRef with
  | none => simp [stopRecording, hr]
  | some i =>
      rcases h with h | h
      · simp [stopRecording, hr, h]
      · rw [hr] at h; cases h

/-- Witness for claim C9: stopping from the initial (idle) state changes
nothing. -/
theorem claim_C9_witness : stopRecording initState = initState :=
  claim_C9 initState (Or.inl rfl)

/-- Claim C7: `toggleMicrophone` is a no-op on the whole state whenever
no audio track exists; and when an audio track exists (taking the
externally observable flag in sync with the track, as it is in every
reachable state), two consecutive invocations return both the track's
`enabled` flag and `isMicrophoneEnabled` to their original values. -/
theorem claim_C7 (s : HookState) :
    (s.audioTrackRef = none → toggleMicrophone s = s)
    ∧ (∀ i : Nat, ∀ t : Track, s.audioTrackRef = some i → s.tracks[i]? = some t →
        t.enabled = s.isMicrophoneEnabled →
        ((toggleMicrophone (toggleMicrophone s)).tracks[i]?.map Track.enabled
            = some t.enabled
        ∧ (toggleMicrophone (toggleMicrophone s)).isMicrophoneEnabled
            = s.isMicrophoneEnabled)) := by
  constructor
  · intro h
    cases hr : s.isRecording <;> simp [toggleMicrophone, hr, h]
  · intro i t href ht hsync
    cases hr : s.isRecording
    · simp [toggleMicrophone, hr, ht]
    · simp [toggleMicrophone, hr, href, ht, List.getElem?_set_self', Bool.not_not, hsync]

/-- Witness for claim C7: on the idle initial state (no audio track) the
toggle changes nothing, and on the concrete session started with a
granted microphone a double toggle restores the microphone flag. -/
theorem claim_C7_witness :
    toggleMicrophone initState = initState
    ∧ (toggleMicrophone (toggleMicrophone (startRecording initState 0 true true true))).isMicrophoneEnabled
        = (startRecording initState 0 true true true).isMicrophoneEnabled :=
  ⟨(claim_C7 initState).1 rfl,
   ((claim_C7 (startRecording initState 0 true true true)).2 1
      (Track.mk TrackKind.audio true false) rfl rfl rfl).2⟩

/-- Claim C8: for every database state in which the completion flag of
`(videoId, sessionId)` is not already truthy — in particular whenever
the video record does not exist yet or the session is fresh — two
consecutive `updateWatchProgress` calls with progress at least 0.95
increment `watchCompletions` by exactly 1 in total, not 2: the first
high-progress update sets the per-session completion flag and the second
one finds it and does not increment again. -/
theorem claim_C8 (db : DB) (videoId sessionId createdAt : String) (p1 p2 : ℚ)
    (h1 : 95 / 100 ≤ p1) (h2 : 95 / 100 ≤ p2)
    (hflag : completedFlagTruthy db videoId sessionId = false) :
    completionsOf
        (updateWatchProgress (updateWatchProgress db videoId sessionId p1 createdAt)
          videoId sessionId p2 createdAt) videoId
      = completionsOf db videoId + 1 := by
  cases hdb : objGet db videoId with
  | some r =>
      have hr : truthy (objGet r.watchProgress (sessionId ++ "_completed")) = false := by
        unfold completedFlagTruthy at hflag
        rw [hdb] at hflag
        exact hflag
      have hb := applyWatchProgress_bump r sessionId p1 h1 hr
      have hsecond :
          updateWatchProgress (updateWatchProgress db videoId sessionId p1 createdAt)
              videoId sessionId p2 createdAt
            = objSet (objSet db videoId (applyWatchProgress r sessionId p1)) videoId
                (applyWatchProgress (applyWatchProgress r sessionId p1) sessionId p2) := by
        unfold updateWatchProgress
        rw [hdb]
        rw [objGet_objSet_self]
      rw [hsecond]
      unfold completionsOf
      rw [objGet_objSet_self, hdb]
      show (applyWatchProgress (applyWatchProgress r sessionId p1) sessionId p2).watchCompletions
        = r.watchCompletions + 1
      rw [applyWatchProgress_no_bump _ _ _ hb.2, hb.1]
  | none =>
      have hfresh : objGet (createVideoRecord db videoId createdAt) videoId
          = some (VideoRecord.mk videoId createdAt 0 0 []) :=
        objGet_objSet_self _ _ _
      have hr0 : truthy (objGet ([] : WPMap) (sessionId ++ "_completed")) = false := rfl
      have hb := applyWatchProgress_bump (VideoRecord.mk videoId createdAt 0 0 [])
        sessionId p1 h1 hr0
      have hfirst :
          updateWatchProgress db videoId sessionId p1 createdAt
            = objSet (createVideoRecord db videoId createdAt) videoId
                (applyWatchProgress (VideoRecord.mk videoId createdAt 0 0 []) sessionId p1) := by
        simp only [updateWatchProgress, hdb, hfresh]
      have hsecond :
          updateWatchProgress (updateWatchProgress db videoId sessionId p1 createdAt)
              videoId sessionId p2 createdAt
            = objSet (objSet (createVideoRecord db videoId createdAt) videoId
                  (applyWatchProgress (VideoRecord.mk videoId createdAt 0 0 []) sessionId p1))
                videoId
                (applyWatchProgress
                  (applyWatchProgress (VideoRecord.mk videoId createdAt 0 0 []) sessionId p1)
                  sessionId p2) := by
        rw [hfirst]
        unfold updateWatchProgress
        rw [objGet_objSet_self]
      rw [hsecond]
      unfold completionsOf
      rw [objGet_objSet_self, hdb]
      show (applyWatchProgress
              (applyWatchProgress (VideoRecord.mk videoId createdAt 0 0 []) sessionId p1)
              sessionId p2).watchCompletions
        = 0 + 1
      rw [applyWatchProgress_no_bump _ _ _ hb.2, hb.1]

/-- Witness for claim C8: on the empty database, posting progress 0.95
twice for video "v" and session "s" yields exactly one completion. -/
theorem claim_C8_witness :
    completionsOf
        (updateWatchProgress (updateWatchProgress [] "v" "s" (95 / 100) "t") "v" "s"
          (95 / 100) "t") "v"
      = 0 + 1 :=
  claim_C8 [] "v" "s" "t" (95 / 100) (95 / 100) (le_refl _) (le_refl _) rfl

/-- Counterexample to claim C5 as stated.  The claim's first validation
condition is "non-finite start/end", but the source's first check is
`isNaN` only: at `start = Infinity` (reachable, e.g. `parseFloat` of
"1e999"), `end = 4`, `duration = 10`, the start is non-finite yet the
code does not report the invalid-numbers error — the input falls through
to the `start >= end` check — whereas a validator ordered as the claim
states (`specTrimValidate`) reports `invalidNumbers` first. -/
theorem claim_C5_counterexample :
    JsNum.isFinite JsNum.posInf = false
    ∧ trimValidate JsNum.posInf (JsNum.fin 4) 10 = TrimOutcome.startNotLtEnd
    ∧ trimValidate JsNum.posInf (JsNum.fin 4) 10 ≠ TrimOutcome.invalidNumbers
    ∧ specTrimValidate JsNum.posInf (JsNum.fin 4) 10 = TrimOutcome.invalidNumbers := by
  have heq : trimValidate JsNum.posInf (JsNum.fin 4) 10 = TrimOutcome.startNotLtEnd := by
    norm_num [trimValidate, JsNum.isNaN, JsNum.lt, JsNum.gt, JsNum.ge]
  exact ⟨rfl, heq, by rw [heq]; decide, by simp [specTrimValidate, JsNum.isFinite]⟩

/-- Claim C5 as amended: the five checks run in the source order with
first failure winning, except that the first check rejects exactly NaN
inputs (±Infinity passes it and is caught by the later comparisons):
each failure outcome occurs iff its own condition holds and every
earlier condition fails.  The concrete example start=5, end=4,
duration=10 produces exactly the "Start time must be less than end time"
error, and whenever validation fails (or the blob/engine-load guards
return early) `trimVideo` is never invoked, so no per-call engine
resource is touched. -/
theorem claim_C5 :
    (∀ st en : JsNum, ∀ d : ℚ,
        (trimValidate st en d = TrimOutcome.invalidNumbers
          ↔ (st.isNaN || en.isNaN) = true)
      ∧ (trimValidate st en d = TrimOutcome.negativeStart
          ↔ (st.isNaN || en.isNaN) = false ∧ st.lt (JsNum.fin 0) = true)
      ∧ (trimValidate st en d = TrimOutcome.endTooLarge
          ↔ (st.isNaN || en.isNaN) = false ∧ st.lt (JsNum.fin 0) = false
            ∧ en.gt (JsNum.fin d) = true)
      ∧ (trimValidate st en d = TrimOutcome.startNotLtEnd
          ↔ (st.isNaN || en.isNaN) = false ∧ st.lt (JsNum.fin 0) = false
            ∧ en.gt (JsNum.fin d) = false ∧ st.ge en = true)
      ∧ (trimValidate st en d = TrimOutcome.tooShort
          ↔ (st.isNaN || en.isNaN) = false ∧ st.lt (JsNum.fin 0) = false
            ∧ en.gt (JsNum.fin d) = false ∧ st.ge en = false
            ∧ (en.sub st).lt (JsNum.fin (1 / 10)) = true))
    ∧ trimValidate (JsNum.fin 5) (JsNum.fin 4) 10 = TrimOutcome.startNotLtEnd
    ∧ trimErrorMessage (trimValidate (JsNum.fin 5) (JsNum.fin 4) 10)
        = some "Start time must be less than end time"
    ∧ (∀ hasBlob ffmpegLoaded loadOk : Bool, ∀ st en : JsNum, ∀ d : ℚ,
        trimValidate st en d ≠ TrimOutcome.engineRun →
        (handleTrim hasBlob ffmpegLoaded loadOk st en d).engineInvoked = false) := by
  have hcases : ∀ st en : JsNum, ∀ d : ℚ,
      (trimValidate st en d = TrimOutcome.invalidNumbers
        ↔ (st.isNaN || en.isNaN) = true)
    ∧ (trimValidate st en d = TrimOutcome.negativeStart
        ↔ (st.isNaN || en.isNaN) = false ∧ st.lt (JsNum.fin 0) = true)
    ∧ (trimValidate st en d = TrimOutcome.endTooLarge
        ↔ (st.isNaN || en.isNaN) = false ∧ st.lt (JsNum.fin 0) = false
          ∧ en.gt (JsNum.fin d) = true)
    ∧ (trimValidate st en d = TrimOutcome.startNotLtEnd
        ↔ (st.isNaN || en.isNaN) = false ∧ st.lt (JsNum.fin 0) = false
          ∧ en.gt (JsNum.fin d) = false ∧ st.ge en = true)
    ∧ (trimValidate st en d = TrimOutcome.tooShort
        ↔ (st.isNaN || en.isNaN) = false ∧ st.lt (JsNum.fin 0) = false
          ∧ en.gt (JsNum.fin d) = false ∧ st.ge en = false
          ∧ (en.sub st).lt (JsNum.fin (1 / 10)) = true) := by
    intro st en d
    unfold trimValidate
    by_cases hA : st.isNaN = true <;>
      by_cases hB : en.isNaN = true <;>
        by_cases h2 : st.lt (JsNum.fin 0) = true <;>
          by_cases h3 : en.gt (JsNum.fin d) = true <;>
            by_cases h4 : st.ge en = true <;>
              by_cases h5 : (en.sub st).lt (JsNum.fin (1 / 10)) = true <;>
                simp_all
  refine ⟨hcases, ?_, ?_, ?_⟩
  · norm_num [trimValidate, JsNum.isNaN, JsNum.lt, JsNum.gt, JsNum.ge]
  · rw [show trimValidate (JsNum.fin 5) (JsNum.fin 4) 10 = TrimOutcome.startNotLtEnd by
      norm_num [trimValidate, JsNum.isNaN, JsNum.lt, JsNum.gt, JsNum.ge]]
    rfl
  · intro hasBlob ffmpegLoaded loadOk st en d hne
    cases hasBlob <;> cases ffmpegLoaded <;> cases loadOk <;>
      cases hv : trimValidate st en d <;>
        simp_all [handleTrim]

/-- Witness for claim C5 (amended): at the concrete input start=5,
end=4, duration=10 with a loaded engine, the start-not-less-than-end
characterization holds and the engine is not invoked. -/
theorem claim_C5_witness :
    (trimValidate (JsNum.fin 5) (JsNum.fin 4) 10 = TrimOutcome.startNotLtEnd
      ↔ ((JsNum.fin 5).isNaN || (JsNum.fin 4).isNaN) = false
        ∧ (JsNum.fin 5).lt (JsNum.fin 0) = false
        ∧ (JsNum.fin 4).gt (JsNum.fin 10) = false ∧ (JsNum.fin 5).ge (JsNum.fin 4) = true)
    ∧ (handleTrim true true true (JsNum.fin 5) (JsNum.fin 4) 10).engineInvoked = false :=
  ⟨(claim_C5.1 (JsNum.fin 5) (JsNum.fin 4) 10).2.2.2.1,
   claim_C5.2.2.2 true true true (JsNum.fin 5) (JsNum.fin 4) 10
     (by rw [claim_C5.2.1]; intro hcontra; cases hcontra)⟩

/-- The concrete working directory used to demonstrate claim C10:
`process.cwd() = /srv/app`, so `UPLOADS_DIR = /srv/app/uploads`. -/
def srvCwd : List String := ["srv", "app"]

/-- A filesystem holding exactly one file, `/srv/secret.webm`, which
lies outside the uploads directory. -/
def secretFs : List String → Option Blob :=
  fun p => if p = ["srv", "secret.webm"] then some [7, 7] else none

/-- Claim C10: `getVideoPath` concatenates the caller-supplied id into
the uploads directory without sanitisation, so there is an id — here
`"../../secret"`, whose `..` segments survive into the join — whose
resolved path `/srv/secret.webm` lies outside `/srv/app/uploads`, and
`GET /video/{id}` serves that outside file when it exists. -/
theorem claim_C10 :
    ∃ videoId : String,
      getVideoPath srvCwd videoId = ["srv", "secret.webm"]
      ∧ (uploadsDir srvCwd).isPrefixOf (getVideoPath srvCwd videoId) = false
      ∧ getVideoRoute secretFs srvCwd videoId = VideoResponse.ok [7, 7] := by
  refine ⟨"../../secret", by decide, by decide, ?_⟩
  rfl

end ScreenDemo
